import Mathlib

/-!
# Attendance ingest service and contract deployment script

A shallow embedding of `src/Server.js` (the `POST /api/attendance` handler, its
Mongoose schema and model) and of `src/deploy.js` (the Hardhat deployment
script), followed by the properties proved about them.

The handler is embedded as a pure function from the request and the outcomes
of the external collaborators (clock, identifier generator, database driver)
to the run it performs: the ordered effects (console lines, database
operations, the settled `save()` call, the HTTP response) and the error its
promise rejects with, if any.  Language and library behaviour the two source
files rely on (ECMAScript destructuring and template-literal conversion,
Mongoose casting, defaults and validation) is embedded next to the source
lines that invoke it.
-/

namespace Attendance

/-! ## JavaScript values -/

/-- A JavaScript number.  Every finite double is a rational, so finite values
are carried as rationals; the three non-finite values are separate.  The
embedding never rounds: numbers are only moved, compared and handed to the
engine functions of `Runtime`. -/
inductive JsNum where
  | finite (q : Rat)
  | posInf
  | negInf
  | nan
deriving DecidableEq

/-- The values `express.json()` can leave in `req.body`, and their parts:
`undefined` (no body was parsed) or a parsed JSON value.  An object is the list
of its own data properties; the first binding of a key is the property. -/
inductive JsVal where
  | undefined
  | null
  | bool (b : Bool)
  | num (n : JsNum)
  | str (s : String)
  | arr (items : List JsVal)
  | obj (props : List (String × JsVal))

/-- A thrown `Error` object: its constructor name and its `message`. -/
structure JsError where
  name : String
  message : String
deriving DecidableEq

/-- Engine and library text functions the embedding does not compute:
`Number::toString`, `StringToNumber` (the `Number(s)` conversion) and the
message Mongoose builds for a `ValidationError` from the paths that failed to
cast. -/
structure Runtime where
  numberToString : JsNum → String
  stringToNumber : String → JsNum
  validationMessage : List (String × JsVal) → String

/-- Own data property `key` of a value, `undefined` when there is none.  For
the two names the handler reads (`fingerId`, `message`), which no built-in
prototype defines, this is the result of the property read: arrays own only
indices and `length`, primitives own neither name. -/
def ownProp (v : JsVal) (key : String) : JsVal :=
  match v with
  | .obj props => (props.lookup key).getD .undefined
  | _ => .undefined

/-- Whether the object with these own properties has an own property `key`. -/
def hasOwn (props : List (String × JsVal)) (key : String) : Bool :=
  (props.lookup key).isSome

/-- The `TypeError` of `ToPrimitive` on an object with no usable conversion. -/
def primitiveError : JsError :=
  { name := "TypeError", message := "Cannot convert object to primitive value" }

mutual
/-- ECMAScript `ToString`, as applied by a template literal substitution.
An array is joined by `Array.prototype.toString`.  A parsed JSON object
converts through `Object.prototype.toString` unless it has an own property
`toString`: a parsed value is never callable, so that conversion is skipped,
`valueOf` yields no primitive either, and `TypeError` is thrown. -/
def jsToString (rt : Runtime) : JsVal → Except JsError String
  | .undefined => .ok "undefined"
  | .null => .ok "null"
  | .bool b => .ok (if b then "true" else "false")
  | .num n => .ok (rt.numberToString n)
  | .str s => .ok s
  | .arr items => jsJoin rt items
  | .obj props => if hasOwn props "toString" then .error primitiveError else .ok "[object Object]"
/-- The join of `Array.prototype.join` with separator `,`: `undefined` and
`null` elements contribute the empty string, every other element its
`ToString`, converted left to right. -/
def jsJoin (rt : Runtime) : List JsVal → Except JsError String
  | [] => .ok ""
  | x :: rest =>
    let head : Except JsError String :=
      match x with
      | .undefined => .ok ""
      | .null => .ok ""
      | v => jsToString rt v
    match head, rest, jsJoin rt rest with
    | .error e, _, _ => .error e
    | .ok a, [], _ => .ok a
    | .ok _, _ :: _, .error e => .error e
    | .ok a, _ :: _, .ok b => .ok (a ++ "," ++ b)
end

/-! ## The Mongoose model `Finger_Attendance` (Server.js lines 20-26) -/

/-- A `Finger_Attendance` document.  `id` is the generated `_id`; `fingerId`
and `message` hold the cast value, `undefined` when the path is unset;
`timestamp` is the time value of the `Date`; `invalid` lists the paths whose
supplied value failed to cast, with that value, as `validate()` reports them. -/
structure Doc where
  id : String
  fingerId : JsVal
  message : JsVal
  timestamp : Nat
  invalid : List (String × JsVal)

/-- What the surroundings decide for one request: the reading of `Date.now`
when the document is constructed, the `_id` generated for it, and the driver's
answer to the insert, `none` for an acknowledged write. -/
structure World where
  now : Nat
  objectId : String
  insert : Doc → Option JsError

/-- A number that is not `NaN`, as Mongoose's number cast asserts it. -/
def notNaN (n : JsNum) : Option JsVal :=
  if n = JsNum.nan then none else some (.num n)

/-- Mongoose's number cast proper (`castNumber` of the library), `none` where
it throws: `null` and `undefined` pass, the empty string becomes `null`, a
string or boolean goes through `Number(...)`, `NaN` is refused, and arrays and
parsed JSON objects are refused (an array fails every branch; a parsed object
converts to `NaN` or does not convert at all). -/
def castNumberCore (rt : Runtime) : JsVal → Option JsVal
  | .undefined => some .undefined
  | .null => some .null
  | .str s => if s = "" then some .null else notNaN (rt.stringToNumber s)
  | .bool b => some (.num (.finite (if b then 1 else 0)))
  | .num n => notNaN n
  | .arr _ => none
  | .obj _ => none

/-- Mongoose's cast for a path declared `Number` (`fingerId: Number`), `none`
for a `CastError`.  `SchemaNumber.prototype.cast` first replaces a value that
carries an `_id` by that `_id` (one level, meant for documents) and then
applies the number cast: `{"_id": 5}` casts to `5`.  Only an object can own
an `_id`. -/
def castNumber (rt : Runtime) (value : JsVal) : Option JsVal :=
  match value with
  | .obj props =>
    match props.lookup "_id" with
    | none => castNumberCore rt value
    | some .undefined => castNumberCore rt value
    | some id => castNumberCore rt id
  | v => castNumberCore rt v

/-- Mongoose's cast for a path declared `String` (`message: String`), `none`
for a `CastError`: `null` and `undefined` pass, a string is kept, a number or
boolean is converted with its own `toString`, an object carrying a non-empty
string `_id` is replaced by it, and every other array or object is refused. -/
def castString (rt : Runtime) : JsVal → Option JsVal
  | .undefined => some .undefined
  | .null => some .null
  | .str s => some (.str s)
  | .num n => some (.str (rt.numberToString n))
  | .bool b => some (.str (if b then "true" else "false"))
  | .arr _ => none
  | .obj props =>
    match props.lookup "_id" with
    | some (.str s) => if s = "" then none else some (.str s)
    | _ => none

/-- The value a path holds after an assignment was cast: a failed cast leaves
the path unset. -/
def castValue (cast : Option JsVal) : JsVal :=
  cast.getD .undefined

/-- The entry a failed cast adds to the document's validation errors. -/
def castFailure (path : String) (value : JsVal) (cast : Option JsVal) : List (String × JsVal) :=
  match cast with
  | some _ => []
  | none => [(path, value)]

/-- Construction `new FingerAttendance({ fingerId, message })` (line 35).  The
object literal has exactly the two keys, so `timestamp` is never supplied and
takes the schema default `Date.now`, evaluated here; each supplied value is
cast to the declared type of its path and a failed cast is recorded, not
thrown. -/
def newFingerAttendance (rt : Runtime) (w : World) (fingerId message : JsVal) : Doc :=
  { id := w.objectId
    fingerId := castValue (castNumber rt fingerId)
    message := castValue (castString rt message)
    timestamp := w.now
    invalid := castFailure "fingerId" fingerId (castNumber rt fingerId)
      ++ castFailure "message" message (castString rt message) }

/-- Operations the database driver can be asked for. -/
inductive DbOp where
  | insertOne (doc : Doc)
  | find
  | updateOne
  | deleteOne

/-- The `ValidationError` that `save()` rejects with when casts failed. -/
def validationError (rt : Runtime) (entry : Doc) : JsError :=
  { name := "ValidationError", message := rt.validationMessage entry.invalid }

/-- The call `entry.save()`: validation first, rejecting without touching the
database when a path failed to cast; otherwise one `insertOne`, whose outcome
is the outcome of the call.  Returns the operations issued and the result. -/
def save (rt : Runtime) (w : World) (entry : Doc) : List DbOp × Except JsError Unit :=
  if entry.invalid.isEmpty then
    match w.insert entry with
    | none => ([.insertOne entry], .ok ())
    | some err => ([.insertOne entry], .error err)
  else
    ([], .error (validationError rt entry))

/-! ## The handler (Server.js lines 29-43) -/

/-- The parsed request, as far as the handler reads it. -/
structure Req where
  body : JsVal

/-- One argument of a console call. -/
inductive LogArg where
  | text (s : String)
  | doc (d : Doc)

/-- The JSON object handed to `res.json`; a key the literal does not have is
`none`. -/
structure Envelope where
  success : Bool
  data : Option Doc
  error : Option String

/-- The effects of the handler, in the order they happen. -/
inductive Event where
  | log (args : List LogArg)
  | error (args : List LogArg)
  | db (op : DbOp)
  | saved (entry : Doc) (result : Except JsError Unit)
  | respond (status : Nat) (body : Envelope)

/-- One execution of the handler: its effects, and the error its promise
rejects with when a statement outside the `try` throws. -/
structure Run where
  events : List Event
  threw : Option JsError

/-- The `TypeError` of destructuring `undefined` or `null` (line 30). -/
def destructureError (what : String) : JsError :=
  { name := "TypeError"
    message := "Cannot destructure property 'fingerId' of 'req.body' as it is " ++ what ++ "." }

/-- Line 30, `const { fingerId, message } = req.body`: throws on `undefined`
and `null`, otherwise reads the two properties. -/
def destructure (body : JsVal) : Except JsError (JsVal × JsVal) :=
  match body with
  | .undefined => .error (destructureError "undefined")
  | .null => .error (destructureError "null")
  | v => .ok (ownProp v "fingerId", ownProp v "message")

/-- The template literal of line 32; the substitutions are converted left to
right, before `console.log` is called. -/
def receivedLine (rt : Runtime) (fingerId message : JsVal) : Except JsError String :=
  match jsToString rt fingerId with
  | .error e => .error e
  | .ok f =>
    match jsToString rt message with
    | .error e => .error e
    | .ok m => .ok ("📥 Received attendance data -> fingerId: " ++ f ++ ", message: \"" ++ m ++ "\"")

/-- The body of the `try` block up to the `await` (lines 35-36): the entry
constructed, the database operations issued, and how `save()` settled. -/
def attempt (rt : Runtime) (w : World) (fingerId message : JsVal) :
    Doc × List DbOp × Except JsError Unit :=
  let entry := newFingerAttendance rt w fingerId message
  (entry, save rt w entry)

/-- The `try`/`catch` statement (lines 34-42): the effects after the received
line, for the fields read from the body. -/
def tryCatch (rt : Runtime) (w : World) (fingerId message : JsVal) : List Event :=
  match attempt rt w fingerId message with
  | (entry, ops, .ok ()) =>
    ops.map .db ++
      [ .saved entry (.ok ()),
        .log [.text "✅ Attendance data saved to database:", .doc entry],
        .respond 200 { success := true, data := some entry, error := none } ]
  | (entry, ops, .error err) =>
    ops.map .db ++
      [ .saved entry (.error err),
        .error [.text "❌ Failed to save attendance data:", .text err.message],
        .respond 500 { success := false, data := none, error := some err.message } ]

/-- The handler of `POST /api/attendance` (lines 29-43).  Lines 30 and 32 stand
before the `try`: when one of them throws, nothing has been logged or sent and
the promise of the `async` function rejects. -/
def handler (rt : Runtime) (w : World) (req : Req) : Run :=
  match destructure req.body with
  | .error e => { events := [], threw := some e }
  | .ok (fingerId, message) =>
    match receivedLine rt fingerId message with
    | .error e => { events := [], threw := some e }
    | .ok line =>
      { events := .log [.text line] :: tryCatch rt w fingerId message
        threw := none }

/-- The responses a run sent, in order. -/
def Run.responses (r : Run) : List (Nat × Envelope) :=
  r.events.filterMap fun
    | .respond status body => some (status, body)
    | _ => none

/-- The `save()` calls of a run with their outcomes, in order. -/
def Run.saves (r : Run) : List (Doc × Except JsError Unit) :=
  r.events.filterMap fun
    | .saved entry result => some (entry, result)
    | _ => none

/-- The database operations a run issued, in order. -/
def Run.dbOps (r : Run) : List DbOp :=
  r.events.filterMap fun
    | .db op => some op
    | _ => none

/-- Whether an effect is a console line (`console.log` or `console.error`). -/
def Event.isConsole : Event → Bool
  | .log _ => true
  | .error _ => true
  | _ => false

/-- The number of console lines of a run. -/
def Run.logLines (r : Run) : Nat :=
  r.events.countP Event.isConsole

/-- The collection after a run: every acknowledged insert appended. -/
def Run.storeAfter (r : Run) (store : List Doc) : List Doc :=
  store ++ r.saves.filterMap fun
    | (entry, .ok ()) => some entry
    | _ => none

/-! ## Sample surroundings -/

/-- The text of a number, for the sample runtime: exact for integers and the
non-finite values; other fractions are not tabulated. -/
def sampleNumberText : JsNum → String
  | .finite q => if q.den = 1 then toString q.num else toString q.num ++ "/" ++ toString q.den
  | .posInf => "Infinity"
  | .negInf => "-Infinity"
  | .nan => "NaN"

/-- The conversion `Number(s)`, for the sample runtime: exact for strings of
decimal digits and for strings that are no numeric literal, such as `abc`;
signed, fractional and padded literals are not tabulated. -/
def sampleStringNumber (s : String) : JsNum :=
  if s.data.all Char.isDigit then
    .finite (s.data.foldl (fun n c => 10 * n + (c.toNat - 48)) 0 : Nat)
  else .nan

/-- The value and its type as a Mongoose `CastError` message shows them, for
the sample runtime: exact for strings; other values are not tabulated. -/
def sampleValueText : JsVal → String
  | .str s => "\"" ++ s ++ "\" (type string)"
  | .arr _ => "\"[]\" (type Array)"
  | _ => "\"[object Object]\" (type Object)"

/-- The message of the `CastError` recorded for a path, in the wording of
Mongoose 6 and later. -/
def sampleCastText (failed : String × JsVal) : String :=
  failed.1 ++ ": Cast to " ++ (if failed.1 = "fingerId" then "Number" else "string") ++
    " failed for value " ++ sampleValueText failed.2 ++ " at path \"" ++ failed.1 ++ "\""

/-- Engine and library functions for the examples below, exact on the literals
they use (see the three tables above). -/
def sampleRuntime : Runtime :=
  { numberToString := sampleNumberText
    stringToNumber := sampleStringNumber
    validationMessage := fun failed =>
      "Finger_Attendance validation failed: " ++
        String.intercalate ", " (failed.map sampleCastText) }

/-- A request handled at clock reading 1000 with a reachable database that
acknowledges the insert. -/
def reachable : World :=
  { now := 1000, objectId := "65f0c0ffee0000000000a001", insert := fun _ => none }

/-- The error the sample database reports while it is unreachable. -/
def connectionClosed : JsError :=
  { name := "MongoNetworkError", message := "connection closed" }

/-- A request handled while the database connection is lost. -/
def unreachable : World :=
  { now := 1000, objectId := "65f0c0ffee0000000000a002", insert := fun _ => some connectionClosed }

/-- The body `{"fingerId": 101, "message": "Attendance marked"}`. -/
def markedBody : JsVal :=
  .obj [("fingerId", .num (.finite 101)), ("message", .str "Attendance marked")]

/-- The record constructed from `markedBody` in the world `reachable`. -/
def markedDoc : Doc :=
  { id := "65f0c0ffee0000000000a001"
    fingerId := .num (.finite 101)
    message := .str "Attendance marked"
    timestamp := 1000
    invalid := [] }

/-- The body `{"fingerId": "abc", "message": "x"}`: a `fingerId` that is not
numeric. -/
def wordBody : JsVal :=
  .obj [("fingerId", .str "abc"), ("message", .str "x")]

/-- The body `{"fingerId": [], "message": "x"}`: a `fingerId` that is an
array. -/
def arrayBody : JsVal :=
  .obj [("fingerId", .arr []), ("message", .str "x")]

/-- The body `{"fingerId": 101}`, without a `message`. -/
def noMessageBody : JsVal :=
  .obj [("fingerId", .num (.finite 101))]

/-- The record constructed from `noMessageBody` in the world `reachable`. -/
def noMessageDoc : Doc :=
  { id := "65f0c0ffee0000000000a001"
    fingerId := .num (.finite 101)
    message := .undefined
    timestamp := 1000
    invalid := [] }

/-- The body `{"fingerId": true, "message": false}`: both fields are
booleans. -/
def boolBody : JsVal :=
  .obj [("fingerId", .bool true), ("message", .bool false)]

/-- The record constructed from `boolBody` in the world `reachable`. -/
def boolDoc : Doc :=
  { id := "65f0c0ffee0000000000a001"
    fingerId := .num (.finite 1)
    message := .str "false"
    timestamp := 1000
    invalid := [] }

/-- The body `{"fingerId": ""}`: an empty `fingerId` and no `message`. -/
def emptyIdBody : JsVal :=
  .obj [("fingerId", .str "")]

/-- The record constructed from `emptyIdBody` in the world `reachable`. -/
def emptyIdDoc : Doc :=
  { id := "65f0c0ffee0000000000a001"
    fingerId := .null
    message := .undefined
    timestamp := 1000
    invalid := [] }

/-- The body `{"fingerId": {"_id": 5}, "message": "x"}`: a `fingerId` that
carries an `_id`. -/
def wrappedBody : JsVal :=
  .obj [("fingerId", .obj [("_id", .num (.finite 5))]), ("message", .str "x")]

/-- The record constructed from `wrappedBody` in the world `reachable`. -/
def wrappedDoc : Doc :=
  { id := "65f0c0ffee0000000000a001"
    fingerId := .num (.finite 5)
    message := .str "x"
    timestamp := 1000
    invalid := [] }

/-- The body `{"fingerId": 101, "message": "Attendance marked", "timestamp": 5}`,
which carries a timestamp of its own. -/
def stampedBody : JsVal :=
  .obj [("fingerId", .num (.finite 101)), ("message", .str "Attendance marked"),
    ("timestamp", .num (.finite 5))]

/-- The body `{"fingerId": {"toString": 1}}`: valid JSON whose `fingerId` is
an object with an own, non-callable `toString`. -/
def trapBody : JsVal :=
  .obj [("fingerId", .obj [("toString", .num (.finite 1))])]

end Attendance

/-! ## The deployment script (deploy.js) -/

namespace Deploy

open Attendance (JsError)

/-- The four awaited calls of `main`, in program order. -/
inductive Step where
  | getContractFactory
  | deploy
  | waitForDeployment
  | getAddress
deriving DecidableEq

/-- The Hardhat toolchain and the network behind it, as far as `main` calls
them: each call resolves with a value or rejects with an error.  A factory and
a contract are handles. -/
structure Hardhat where
  getContractFactory : String → Except JsError Nat
  deploy : Nat → Except JsError Nat
  waitForDeployment : Nat → Except JsError Unit
  getAddress : Nat → Except JsError String

/-- The effects of the script, in the order they happen: a call of `main`
settling, a `console.log` line, `console.error(err)`, `process.exit(code)`. -/
inductive Event where
  | resolved (step : Step)
  | rejected (step : Step) (err : JsError)
  | log (args : List String)
  | error (err : JsError)
  | exit (code : Nat)
deriving DecidableEq

/-- The function `main` (lines 4-9): the effects, and how its promise settles.
The argument `await contract.getAddress()` is evaluated before `console.log`
is called. -/
def main (h : Hardhat) : List Event × Except JsError Unit :=
  match h.getContractFactory "BiometricNFT" with
  | .error e => ([.rejected .getContractFactory e], .error e)
  | .ok factory =>
    match h.deploy factory with
    | .error e => ([.resolved .getContractFactory, .rejected .deploy e], .error e)
    | .ok contract =>
      match h.waitForDeployment contract with
      | .error e =>
        ([.resolved .getContractFactory, .resolved .deploy, .rejected .waitForDeployment e],
          .error e)
      | .ok () =>
        match h.getAddress contract with
        | .error e =>
          ([.resolved .getContractFactory, .resolved .deploy, .resolved .waitForDeployment,
            .rejected .getAddress e], .error e)
        | .ok address =>
          ([.resolved .getContractFactory, .resolved .deploy, .resolved .waitForDeployment,
            .resolved .getAddress, .log ["✅ Deployed at:", address]], .ok ())

/-- The script once its modules are loaded (lines 11-14): `main()` with the
`catch` handler that prints the error and exits with code 1. -/
def script (h : Hardhat) : List Event :=
  match main h with
  | (events, .ok ()) => events
  | (events, .error err) => events ++ [.error err, .exit 1]

/-- Whether an effect is a call of `main` that resolved. -/
def Event.isResolved : Event → Bool
  | .resolved _ => true
  | _ => false

/-- Whether an effect is a `console.log` line. -/
def Event.isLog : Event → Bool
  | .log _ => true
  | _ => false

/-- A test network on which every call resolves. -/
def testNetwork : Hardhat :=
  { getContractFactory := fun _ => .ok 1
    deploy := fun _ => .ok 2
    waitForDeployment := fun _ => .ok ()
    getAddress := fun _ => .ok "0x5FbDB2315678afecb367f032d93F642f64180aa3" }

/-- A network that cannot be reached: the deployment transaction is refused. -/
def deadNetwork : Hardhat :=
  { getContractFactory := fun _ => .ok 1
    deploy := fun _ => .error { name := "HardhatError", message := "Cannot connect to the network" }
    waitForDeployment := fun _ => .ok ()
    getAddress := fun _ => .ok "" }

end Deploy

/-! ## Properties of the handler -/

namespace Attendance

/-- Line 30 succeeds exactly with the two own properties of the body. -/
theorem destructure_ok {body f m : JsVal} (h : destructure body = .ok (f, m)) :
    f = ownProp body "fingerId" ∧ m = ownProp body "message" := by
  cases body <;> simp [destructure] at h <;> exact ⟨h.1.symm, h.2.symm⟩

/-- The two ways a run of the handler can go: a statement before the `try`
throws and nothing has happened, or the received line is logged and the
`try`/`catch` statement runs. -/
theorem handler_cases (rt : Runtime) (w : World) (req : Req) :
    (∃ e, handler rt w req = { events := [], threw := some e }) ∨
    (∃ line, receivedLine rt (ownProp req.body "fingerId") (ownProp req.body "message") = .ok line ∧
      handler rt w req =
        { events := .log [.text line] ::
            tryCatch rt w (ownProp req.body "fingerId") (ownProp req.body "message")
          threw := none }) := by
  unfold handler
  cases hd : destructure req.body with
  | error e => exact Or.inl ⟨e, rfl⟩
  | ok fields =>
    obtain ⟨f, m⟩ := fields
    obtain ⟨hf, hm⟩ := destructure_ok hd
    subst hf hm
    cases hl : receivedLine rt (ownProp req.body "fingerId") (ownProp req.body "message") with
    | error e => exact Or.inl ⟨e, by simp [hl]⟩
    | ok line => exact Or.inr ⟨line, rfl, by simp [hl]⟩

/-- The three ways the `try`/`catch` statement can go: the insert is
acknowledged, the insert is refused, or validation rejects before any
insert. -/
theorem tryCatch_cases (rt : Runtime) (w : World) (f m : JsVal) :
    (w.insert (newFingerAttendance rt w f m) = none ∧
      (newFingerAttendance rt w f m).invalid = [] ∧
      tryCatch rt w f m =
        [ .db (.insertOne (newFingerAttendance rt w f m)),
          .saved (newFingerAttendance rt w f m) (.ok ()),
          .log [.text "✅ Attendance data saved to database:", .doc (newFingerAttendance rt w f m)],
          .respond 200
            { success := true, data := some (newFingerAttendance rt w f m), error := none } ]) ∨
    (∃ err, w.insert (newFingerAttendance rt w f m) = some err ∧
      (newFingerAttendance rt w f m).invalid = [] ∧
      tryCatch rt w f m =
        [ .db (.insertOne (newFingerAttendance rt w f m)),
          .saved (newFingerAttendance rt w f m) (.error err),
          .error [.text "❌ Failed to save attendance data:", .text err.message],
          .respond 500 { success := false, data := none, error := some err.message } ]) ∨
    ((newFingerAttendance rt w f m).invalid ≠ [] ∧
      tryCatch rt w f m =
        [ .saved (newFingerAttendance rt w f m)
            (.error (validationError rt (newFingerAttendance rt w f m))),
          .error [.text "❌ Failed to save attendance data:",
            .text (validationError rt (newFingerAttendance rt w f m)).message],
          .respond 500
            { success := false, data := none
              error := some (validationError rt (newFingerAttendance rt w f m)).message } ]) := by
  unfold tryCatch attempt save
  cases hinv : (newFingerAttendance rt w f m).invalid with
  | nil =>
    cases hins : w.insert (newFingerAttendance rt w f m) with
    | none => left; simp [hinv, hins]
    | some err => right; left; exact ⟨err, by simp [hinv, hins]⟩
  | cons p ps => right; right; simp [hinv]

/-- A record whose casts all succeeded holds a numeric `fingerId` unchanged. -/
theorem fingerId_kept {rt : Runtime} {w : World} {f m : JsVal} {n : JsNum}
    (hvalid : (newFingerAttendance rt w f m).invalid = []) (hf : f = .num n) :
    (newFingerAttendance rt w f m).fingerId = .num n := by
  subst hf
  by_cases hn : n = JsNum.nan
  · simp [newFingerAttendance, castNumber, castNumberCore, notNaN, castFailure, hn] at hvalid
  · simp [newFingerAttendance, castNumber, castNumberCore, notNaN, castValue, hn]

/-- A record holds a string `message` unchanged. -/
theorem message_kept (rt : Runtime) (w : World) (f : JsVal) (s : String) :
    (newFingerAttendance rt w f (.str s)).message = .str s := by
  simp [newFingerAttendance, castString, castValue]

/-- Counterexample to C1 as stated: for the body
`{"fingerId": true, "message": false}` the save succeeds and the handler
answers 200 with the saved record, but the record holds the schema casts, the
number `1` and the string `"false"`, not the `fingerId` and `message` of the
request body. -/
theorem boolean_fields_coerced :
    (handler sampleRuntime reachable ⟨boolBody⟩).saves = [(boolDoc, .ok ())] ∧
      (handler sampleRuntime reachable ⟨boolBody⟩).responses =
        [(200, { success := true, data := some boolDoc, error := none })] ∧
      ownProp boolBody "fingerId" = .bool true ∧ boolDoc.fingerId = .num (.finite 1) ∧
      boolDoc.fingerId ≠ ownProp boolBody "fingerId" ∧
      ownProp boolBody "message" = .bool false ∧ boolDoc.message = .str "false" ∧
      boolDoc.message ≠ ownProp boolBody "message" :=
  ⟨rfl, rfl, rfl, rfl, (by show JsVal.num (.finite 1) ≠ JsVal.bool true; simp), rfl, rfl,
    (by show JsVal.str "false" ≠ JsVal.bool false; simp)⟩

/-- C1, amended: whenever the `save()` of a request succeeds for a record `r`,
the handler sends exactly one response, with status 200 and the envelope
`{success: true, data: r}`; `r` is the one record inserted, and its `fingerId`
and `message` are the schema casts (to `Number` and to `String`) of the
`fingerId` and `message` of the request body: equal to them when the
`fingerId` is a number and the `message` is a string. -/
theorem post_success_envelope (rt : Runtime) (w : World) (req : Req) (r : Doc)
    (hsave : (r, Except.ok ()) ∈ (handler rt w req).saves) :
    (handler rt w req).responses =
        [(200, { success := true, data := some r, error := none })] ∧
      (handler rt w req).dbOps = [.insertOne r] ∧
      (∀ store, (handler rt w req).storeAfter store = store ++ [r]) ∧
      r.fingerId = castValue (castNumber rt (ownProp req.body "fingerId")) ∧
      r.message = castValue (castString rt (ownProp req.body "message")) ∧
      (∀ n, ownProp req.body "fingerId" = .num n → r.fingerId = .num n) ∧
      (∀ s, ownProp req.body "message" = .str s → r.message = .str s) := by
  rcases handler_cases rt w req with ⟨e, he⟩ | ⟨line, -, hrun⟩
  · simp [he, Run.saves] at hsave
  · rcases tryCatch_cases rt w (ownProp req.body "fingerId") (ownProp req.body "message") with
      ⟨-, hvalid, htry⟩ | ⟨err, -, -, htry⟩ | ⟨-, htry⟩
    · rw [hrun, htry] at hsave ⊢
      simp [Run.saves] at hsave
      subst hsave
      refine ⟨by simp [Run.responses], by simp [Run.dbOps], ?_, rfl, rfl, ?_, ?_⟩
      · intro store
        simp [Run.storeAfter, Run.saves]
      · intro n hn
        exact fingerId_kept hvalid hn
      · intro s hs
        rw [hs]
        exact message_kept rt w _ s
    · rw [hrun, htry] at hsave
      simp [Run.saves] at hsave
    · rw [hrun, htry] at hsave
      simp [Run.saves] at hsave

/-- Witness for C1, amended: the body `{"fingerId": 101, "message": "Attendance marked"}`
with a reachable database. -/
theorem post_success_envelope_witness :
    (markedDoc, Except.ok ()) ∈ (handler sampleRuntime reachable ⟨markedBody⟩).saves ∧
      (handler sampleRuntime reachable ⟨markedBody⟩).responses =
        [(200, { success := true, data := some markedDoc, error := none })] ∧
      markedDoc.fingerId = .num (.finite 101) ∧
      markedDoc.message = .str "Attendance marked" :=
  have h := post_success_envelope sampleRuntime reachable ⟨markedBody⟩ markedDoc
    (List.mem_singleton.mpr rfl)
  ⟨List.mem_singleton.mpr rfl, h.1, h.2.2.2.2.2.1 _ rfl, h.2.2.2.2.2.2 _ rfl⟩

/-- C2: whenever the `save()` of a request fails with an error `e` (a failed
cast at construction surfaces here, as the validation error of `save()`), the
handler sends exactly one response, with status 500 and the envelope
`{success: false, error: e.message}`, and the failure is logged with that
message; no response with status 200 is sent. -/
theorem post_failure_envelope (rt : Runtime) (w : World) (req : Req) (r : Doc) (e : JsError)
    (hfail : (r, Except.error e) ∈ (handler rt w req).saves) :
    (handler rt w req).responses =
        [(500, { success := false, data := none, error := some e.message })] ∧
      Event.error [.text "❌ Failed to save attendance data:", .text e.message] ∈
        (handler rt w req).events ∧
      (∀ body, (200, body) ∉ (handler rt w req).responses) := by
  rcases handler_cases rt w req with ⟨e', he⟩ | ⟨line, -, hrun⟩
  · simp [he, Run.saves] at hfail
  · rcases tryCatch_cases rt w (ownProp req.body "fingerId") (ownProp req.body "message") with
      ⟨-, -, htry⟩ | ⟨err, -, -, htry⟩ | ⟨-, htry⟩
    · rw [hrun, htry] at hfail
      simp [Run.saves] at hfail
    · rw [hrun, htry] at hfail ⊢
      simp [Run.saves] at hfail
      obtain ⟨-, herr⟩ := hfail
      subst herr
      simp [Run.responses]
    · rw [hrun, htry] at hfail ⊢
      simp [Run.saves] at hfail
      obtain ⟨-, herr⟩ := hfail
      subst herr
      simp [Run.responses]

/-- Witness for C2: the body `{"fingerId": 101, "message": "Attendance marked"}`
while the database connection is lost. -/
theorem post_failure_envelope_witness :
    (newFingerAttendance sampleRuntime unreachable (.num (.finite 101)) (.str "Attendance marked"),
        Except.error connectionClosed) ∈ (handler sampleRuntime unreachable ⟨markedBody⟩).saves ∧
      (handler sampleRuntime unreachable ⟨markedBody⟩).responses =
        [(500, { success := false, data := none, error := some "connection closed" })] ∧
      Event.error [.text "❌ Failed to save attendance data:", .text "connection closed"] ∈
        (handler sampleRuntime unreachable ⟨markedBody⟩).events ∧
      (∀ body, (200, body) ∉ (handler sampleRuntime unreachable ⟨markedBody⟩).responses) :=
  ⟨List.mem_singleton.mpr rfl,
    post_failure_envelope sampleRuntime unreachable ⟨markedBody⟩ _ connectionClosed
      (List.mem_singleton.mpr rfl)⟩

/-- A run in which `save()` succeeded for `r`: `r` is the record constructed
from the two properties of the body, every cast succeeded, the insert was
acknowledged, and the effects are the received line, the insert, the settled
call, the success line and the 200 response. -/
theorem run_of_saved {rt : Runtime} {w : World} {req : Req} {r : Doc}
    (hsave : (r, Except.ok ()) ∈ (handler rt w req).saves) :
    r = newFingerAttendance rt w (ownProp req.body "fingerId") (ownProp req.body "message") ∧
      r.invalid = [] ∧ w.insert r = none ∧
      ∃ line, handler rt w req =
        { events :=
            [ .log [.text line], .db (.insertOne r), .saved r (.ok ()),
              .log [.text "✅ Attendance data saved to database:", .doc r],
              .respond 200 { success := true, data := some r, error := none } ]
          threw := none } := by
  rcases handler_cases rt w req with ⟨e, he⟩ | ⟨line, -, hrun⟩
  · simp [he, Run.saves] at hsave
  · rcases tryCatch_cases rt w (ownProp req.body "fingerId") (ownProp req.body "message") with
      ⟨hins, hvalid, htry⟩ | ⟨err, -, -, htry⟩ | ⟨-, htry⟩
    · rw [hrun, htry] at hsave
      simp [Run.saves] at hsave
      subst hsave
      exact ⟨rfl, hvalid, hins, line, by rw [hrun, htry]⟩
    · rw [hrun, htry] at hsave
      simp [Run.saves] at hsave
    · rw [hrun, htry] at hsave
      simp [Run.saves] at hsave

/-- No cast failed exactly when both supplied values cast. -/
theorem invalid_nil_iff (rt : Runtime) (w : World) (f m : JsVal) :
    (newFingerAttendance rt w f m).invalid = [] ↔
      (castNumber rt f).isSome = true ∧ (castString rt m).isSome = true := by
  cases hf : castNumber rt f <;> cases hm : castString rt m <;>
    simp [newFingerAttendance, castFailure, hf, hm]

/-- Counterexample to C3 as stated: with the database reachable, a `fingerId`
that is not numeric is rejected: for the string `"abc"` the handler answers
500 with the validation error of Mongoose and issues no database operation,
and for an array it answers 500 as well, not 200. -/
theorem non_numeric_fingerId_rejected :
    (∀ d, reachable.insert d = none) ∧
      (handler sampleRuntime reachable ⟨wordBody⟩).responses =
        [(500, { success := false, data := none
                 error := some ("Finger_Attendance validation failed: fingerId: " ++
                   "Cast to Number failed for value \"abc\" (type string) at path \"fingerId\"") })] ∧
      (handler sampleRuntime reachable ⟨wordBody⟩).dbOps = [] ∧
      (handler sampleRuntime reachable ⟨arrayBody⟩).responses.map Prod.fst = [500] ∧
      (handler sampleRuntime reachable ⟨arrayBody⟩).dbOps = [] :=
  ⟨fun _ => rfl, rfl, rfl, rfl, rfl⟩

/-- A string that is not empty and converts to `NaN`, an array, and an object
without an `_id` do not cast to `Number`; a number other than `NaN`, a boolean
and an object whose `_id` is such a number do. -/
theorem castNumber_shapes (rt : Runtime) :
    (∀ s, s ≠ "" → rt.stringToNumber s = .nan → castNumber rt (.str s) = none) ∧
      (∀ items, castNumber rt (.arr items) = none) ∧
      (∀ props, props.lookup "_id" = none → castNumber rt (.obj props) = none) ∧
      (∀ n, n ≠ .nan → castNumber rt (.num n) = some (.num n)) ∧
      (∀ b, castNumber rt (.bool b) = some (.num (.finite (if b then 1 else 0)))) ∧
      (∀ props n, props.lookup "_id" = some (.num n) → n ≠ .nan →
        castNumber rt (.obj props) = some (.num n)) := by
  refine ⟨?_, ?_, ?_, ?_, ?_, ?_⟩
  · intro s hs hnan
    simp [castNumber, castNumberCore, notNaN, hs, hnan]
  · intro items
    simp [castNumber, castNumberCore]
  · intro props hid
    simp [castNumber, castNumberCore, hid]
  · intro n hn
    simp [castNumber, castNumberCore, notNaN, hn]
  · intro b
    simp [castNumber, castNumberCore]
  · intro props n hid hn
    simp [castNumber, castNumberCore, notNaN, hid, hn]

/-- C3, amended: the handler validates nothing itself and never answers with
another status than 200 or 500, but the schema casts decide the outcome.  On
every request the handler does not throw on: when the supplied `fingerId`
casts to `Number`, the supplied `message` casts to `String` and the insert is
acknowledged, the response is 200 with the record holding the cast values;
when one of them does not cast, `save()` rejects with the validation error
before any database operation and the response is 500 with its message.  In
particular a `fingerId` that is a string converting to `NaN`, an array, or an
object without an `_id` is answered 500, and a boolean `fingerId` or an object
`fingerId` whose `_id` is a number is coerced to a number and, with a string
`message` and an acknowledged insert, answered 200. -/
theorem malformed_input_cast_or_rejected (rt : Runtime) (w : World) (req : Req)
    (hrun : (handler rt w req).threw = none) :
    (∀ status body, (status, body) ∈ (handler rt w req).responses → status = 200 ∨ status = 500) ∧
      ((castNumber rt (ownProp req.body "fingerId")).isSome = true →
        (castString rt (ownProp req.body "message")).isSome = true →
        w.insert (newFingerAttendance rt w (ownProp req.body "fingerId")
          (ownProp req.body "message")) = none →
        (handler rt w req).responses =
          [(200, { success := true
                   data := some (newFingerAttendance rt w (ownProp req.body "fingerId")
                     (ownProp req.body "message"))
                   error := none })]) ∧
      ((castNumber rt (ownProp req.body "fingerId") = none ∨
          castString rt (ownProp req.body "message") = none) →
        (handler rt w req).responses =
          [(500, { success := false, data := none
                   error := some (rt.validationMessage
                     (newFingerAttendance rt w (ownProp req.body "fingerId")
                       (ownProp req.body "message")).invalid) })] ∧
        (handler rt w req).dbOps = []) ∧
      (((∃ s, ownProp req.body "fingerId" = .str s ∧ s ≠ "" ∧ rt.stringToNumber s = .nan) ∨
          (∃ items, ownProp req.body "fingerId" = .arr items) ∨
          (∃ props, ownProp req.body "fingerId" = .obj props ∧ props.lookup "_id" = none)) →
        (handler rt w req).responses.map Prod.fst = [500] ∧ (handler rt w req).dbOps = []) ∧
      (∀ n s,
        ((∃ b, ownProp req.body "fingerId" = .bool b ∧ n = .finite (if b then 1 else 0)) ∨
          (∃ props, ownProp req.body "fingerId" = .obj props ∧
            props.lookup "_id" = some (.num n) ∧ n ≠ .nan)) →
        ownProp req.body "message" = .str s →
        w.insert (newFingerAttendance rt w (ownProp req.body "fingerId")
          (ownProp req.body "message")) = none →
        ∃ r, (handler rt w req).responses =
            [(200, { success := true, data := some r, error := none })] ∧
          r.fingerId = .num n ∧ r.message = .str s) := by
  obtain ⟨hstr, harr, hobj, -, hbool, hwrap⟩ := castNumber_shapes rt
  have hmain :
      ((castNumber rt (ownProp req.body "fingerId")).isSome = true →
        (castString rt (ownProp req.body "message")).isSome = true →
        w.insert (newFingerAttendance rt w (ownProp req.body "fingerId")
          (ownProp req.body "message")) = none →
        (handler rt w req).responses =
          [(200, { success := true
                   data := some (newFingerAttendance rt w (ownProp req.body "fingerId")
                     (ownProp req.body "message"))
                   error := none })]) ∧
      ((castNumber rt (ownProp req.body "fingerId") = none ∨
          castString rt (ownProp req.body "message") = none) →
        (handler rt w req).responses =
          [(500, { success := false, data := none
                   error := some (rt.validationMessage
                     (newFingerAttendance rt w (ownProp req.body "fingerId")
                       (ownProp req.body "message")).invalid) })] ∧
        (handler rt w req).dbOps = []) ∧
      (∀ status body, (status, body) ∈ (handler rt w req).responses →
        status = 200 ∨ status = 500) := by
    rcases handler_cases rt w req with ⟨e, he⟩ | ⟨line, -, hh⟩
    · simp [he] at hrun
    · have hiff := invalid_nil_iff rt w (ownProp req.body "fingerId") (ownProp req.body "message")
      rcases tryCatch_cases rt w (ownProp req.body "fingerId") (ownProp req.body "message") with
        ⟨hins, hvalid, htry⟩ | ⟨err, hins, hvalid, htry⟩ | ⟨hinvalid, htry⟩
      · rw [hh, htry]
        refine ⟨fun _ _ _ => by simp [Run.responses], fun hnone => ?_, by simp [Run.responses]⟩
        have hsome := hiff.mp hvalid
        rcases hnone with h | h <;> simp [h] at hsome
      · rw [hh, htry]
        refine ⟨fun _ _ hnone => ?_, fun hnone => ?_, by simp [Run.responses]⟩
        · simp [hins] at hnone
        · have hsome := hiff.mp hvalid
          rcases hnone with h | h <;> simp [h] at hsome
      · rw [hh, htry]
        refine ⟨fun hf hm _ => ?_, fun _ => ?_, by simp [Run.responses]⟩
        · exact absurd (hiff.mpr ⟨hf, hm⟩) hinvalid
        · simp [Run.responses, Run.dbOps, validationError]
  obtain ⟨hok, hbad, hstatus⟩ := hmain
  refine ⟨hstatus, hok, hbad, ?_, ?_⟩
  · intro hshape
    have hnone : castNumber rt (ownProp req.body "fingerId") = none := by
      rcases hshape with ⟨s, hf, hs, hnan⟩ | ⟨items, hf⟩ | ⟨props, hf, hid⟩
      · rw [hf]; exact hstr s hs hnan
      · rw [hf]; exact harr items
      · rw [hf]; exact hobj props hid
    obtain ⟨hresp, hops⟩ := hbad (Or.inl hnone)
    exact ⟨by rw [hresp]; rfl, hops⟩
  · intro n s hshape hmsg hins
    have hcast : castNumber rt (ownProp req.body "fingerId") = some (.num n) := by
      rcases hshape with ⟨b, hf, hn⟩ | ⟨props, hf, hid, hn⟩
      · rw [hf, hbool, hn]
      · rw [hf]; exact hwrap props n hid hn
    have hm : castString rt (ownProp req.body "message") = some (.str s) := by
      rw [hmsg]; rfl
    refine ⟨_, hok (by simp [hcast]) (by simp [hm]) hins, ?_, ?_⟩
    · simp [newFingerAttendance, hcast, castValue]
    · simp [newFingerAttendance, hm, castValue]

/-- Witness for C3, amended: the body `{"fingerId": [], "message": "x"}` is
answered with 500 and no database operation, and the body
`{"fingerId": {"_id": 5}, "message": "x"}` is coerced and answered with 200. -/
theorem malformed_input_cast_or_rejected_witness :
    ((handler sampleRuntime reachable ⟨arrayBody⟩).threw = none ∧
        (handler sampleRuntime reachable ⟨arrayBody⟩).responses.map Prod.fst = [500] ∧
        (handler sampleRuntime reachable ⟨arrayBody⟩).dbOps = []) ∧
      ((handler sampleRuntime reachable ⟨wrappedBody⟩).threw = none ∧
        ∃ r, (handler sampleRuntime reachable ⟨wrappedBody⟩).responses =
            [(200, { success := true, data := some r, error := none })] ∧
          r.fingerId = .num (.finite 5) ∧ r.message = .str "x") :=
  ⟨⟨rfl, (malformed_input_cast_or_rejected sampleRuntime reachable ⟨arrayBody⟩ rfl).2.2.2.1
      (Or.inr (Or.inl ⟨[], rfl⟩))⟩,
    ⟨rfl, (malformed_input_cast_or_rejected sampleRuntime reachable ⟨wrappedBody⟩ rfl).2.2.2.2
      (.finite 5) "x" (Or.inr ⟨[("_id", .num (.finite 5))], rfl, rfl, by decide⟩) rfl rfl⟩⟩

/-- Counterexample to C4 as stated: for the body `{"fingerId": ""}`, which has
a `fingerId` and no `message`, the save succeeds and the handler answers 200
with a record whose `message` is `undefined`, but whose `fingerId` is `null`,
the schema cast of the empty string, not the input. -/
theorem empty_fingerId_stored_null :
    (handler sampleRuntime reachable ⟨emptyIdBody⟩).saves = [(emptyIdDoc, .ok ())] ∧
      (handler sampleRuntime reachable ⟨emptyIdBody⟩).responses =
        [(200, { success := true, data := some emptyIdDoc, error := none })] ∧
      emptyIdDoc.message = .undefined ∧
      ownProp emptyIdBody "fingerId" = .str "" ∧ emptyIdDoc.fingerId = .null ∧
      emptyIdDoc.fingerId ≠ ownProp emptyIdBody "fingerId" :=
  ⟨rfl, rfl, rfl, rfl, rfl, (by show JsVal.null ≠ JsVal.str ""; simp)⟩

/-- C4, amended: for a body that has a `fingerId` and no `message`, whenever
`save()` succeeds for a record `r` the handler sends exactly one response,
with status 200 and `{success: true, data: r}`; `r.message` is `undefined`,
and `r.fingerId` is the schema cast to `Number` of the supplied value: equal
to the input when the input is a number. -/
theorem missing_message_accepted (rt : Runtime) (w : World) (req : Req)
    (props : List (String × JsVal)) (v : JsVal) (r : Doc)
    (hbody : req.body = .obj props)
    (hfid : props.lookup "fingerId" = some v)
    (hmsg : props.lookup "message" = none)
    (hsave : (r, Except.ok ()) ∈ (handler rt w req).saves) :
    (handler rt w req).responses =
        [(200, { success := true, data := some r, error := none })] ∧
      r.message = .undefined ∧
      r.fingerId = castValue (castNumber rt v) ∧
      (∀ n, v = .num n → r.fingerId = .num n) := by
  obtain ⟨hr, hvalid, -, line, hh⟩ := run_of_saved hsave
  have hf : ownProp req.body "fingerId" = v := by simp [ownProp, hbody, hfid]
  have hm : ownProp req.body "message" = .undefined := by simp [ownProp, hbody, hmsg]
  rw [hf, hm] at hr
  refine ⟨by simp [hh, Run.responses], ?_, ?_, ?_⟩
  · rw [hr]; simp [newFingerAttendance, castString, castValue]
  · rw [hr]; simp [newFingerAttendance]
  · intro n hn
    rw [hr] at hvalid ⊢
    exact fingerId_kept hvalid hn

/-- Witness for C4, amended: the body `{"fingerId": 101}` with a reachable database. -/
theorem missing_message_accepted_witness :
    (noMessageDoc, Except.ok ()) ∈ (handler sampleRuntime reachable ⟨noMessageBody⟩).saves ∧
      (handler sampleRuntime reachable ⟨noMessageBody⟩).responses =
        [(200, { success := true, data := some noMessageDoc, error := none })] ∧
      noMessageDoc.message = .undefined ∧
      noMessageDoc.fingerId = castValue (castNumber sampleRuntime (.num (.finite 101))) ∧
      (∀ n, JsVal.num (.finite 101) = .num n → noMessageDoc.fingerId = .num n) :=
  ⟨List.mem_singleton.mpr rfl,
    missing_message_accepted sampleRuntime reachable ⟨noMessageBody⟩
      [("fingerId", .num (.finite 101))] (.num (.finite 101)) noMessageDoc rfl rfl rfl
      (List.mem_singleton.mpr rfl)⟩

/-- The effects of a run that did not throw: the received line, then either
the acknowledged insert with the success line and the 200 response, or a
failed `save()` (with at most the one refused insert) with the failure line
and the 500 response. -/
theorem answered_run {rt : Runtime} {w : World} {req : Req}
    (hrun : (handler rt w req).threw = none) :
    ∃ line r,
      receivedLine rt (ownProp req.body "fingerId") (ownProp req.body "message") = .ok line ∧
      ((handler rt w req).events =
          [ .log [.text line], .db (.insertOne r), .saved r (.ok ()),
            .log [.text "✅ Attendance data saved to database:", .doc r],
            .respond 200 { success := true, data := some r, error := none } ] ∨
      (∃ e, (handler rt w req).events =
          [ .log [.text line], .db (.insertOne r), .saved r (.error e),
            .error [.text "❌ Failed to save attendance data:", .text e.message],
            .respond 500 { success := false, data := none, error := some e.message } ]) ∨
      (∃ e, (handler rt w req).events =
          [ .log [.text line], .saved r (.error e),
            .error [.text "❌ Failed to save attendance data:", .text e.message],
            .respond 500 { success := false, data := none, error := some e.message } ])) := by
  rcases handler_cases rt w req with ⟨e, he⟩ | ⟨line, hline, hh⟩
  · simp [he] at hrun
  · refine ⟨line, newFingerAttendance rt w (ownProp req.body "fingerId")
      (ownProp req.body "message"), hline, ?_⟩
    rcases tryCatch_cases rt w (ownProp req.body "fingerId") (ownProp req.body "message") with
      ⟨-, -, htry⟩ | ⟨err, -, -, htry⟩ | ⟨-, htry⟩
    · left; rw [hh, htry]
    · right; left; exact ⟨err, by rw [hh, htry]⟩
    · right; right; exact ⟨_, by rw [hh, htry]⟩

/-- On every request the handler does not throw on, `save()` is called exactly
once, on one newly constructed record, the only database operation issued is
at most one insert of that record (no retry, no read, update or delete), and
after a successful call the collection is the one before plus that record. -/
theorem one_save_when_answered (rt : Runtime) (w : World) (req : Req)
    (hrun : (handler rt w req).threw = none) :
    ∃ r result, (handler rt w req).saves = [(r, result)] ∧
      ((handler rt w req).dbOps = [.insertOne r] ∨ (handler rt w req).dbOps = []) ∧
      (result = .ok () → (handler rt w req).dbOps = [.insertOne r] ∧
        ∀ store, (handler rt w req).storeAfter store = store ++ [r]) ∧
      (∀ e, result = .error e → ∀ store, (handler rt w req).storeAfter store = store) := by
  obtain ⟨line, r, hline, h | ⟨e, h⟩ | ⟨e, h⟩⟩ := answered_run hrun
  · exact ⟨r, .ok (), by simp [Run.saves, h], by simp [Run.dbOps, h],
      fun _ => ⟨by simp [Run.dbOps, h], by simp [Run.storeAfter, Run.saves, h]⟩,
      fun e he => by simp at he⟩
  · exact ⟨r, .error e, by simp [Run.saves, h], by simp [Run.dbOps, h],
      fun he => by simp at he, fun _ _ => by simp [Run.storeAfter, Run.saves, h]⟩
  · exact ⟨r, .error e, by simp [Run.saves, h], by simp [Run.dbOps, h],
      fun he => by simp at he, fun _ _ => by simp [Run.storeAfter, Run.saves, h]⟩

/-- On every request the handler does not throw on, exactly one response is
sent, with status 200 when `save()` succeeded and 500 otherwise. -/
theorem one_response_when_answered (rt : Runtime) (w : World) (req : Req)
    (hrun : (handler rt w req).threw = none) :
    ∃ r result status body,
      (handler rt w req).saves = [(r, result)] ∧
      (handler rt w req).responses = [(status, body)] ∧
      (result = .ok () → status = 200) ∧ (∀ e, result = .error e → status = 500) := by
  obtain ⟨line, r, hline, h | ⟨e, h⟩ | ⟨e, h⟩⟩ := answered_run hrun
  · exact ⟨r, .ok (), 200, { success := true, data := some r, error := none },
      by simp [Run.saves, h], by simp [Run.responses, h], fun _ => rfl, fun e he => by simp at he⟩
  · exact ⟨r, .error e, 500, { success := false, data := none, error := some e.message },
      by simp [Run.saves, h], by simp [Run.responses, h], fun he => by simp at he, fun _ _ => rfl⟩
  · exact ⟨r, .error e, 500, { success := false, data := none, error := some e.message },
      by simp [Run.saves, h], by simp [Run.responses, h], fun he => by simp at he, fun _ _ => rfl⟩

/-- C5, the failing input: on the JSON body `{"fingerId": {"toString": 1}}`
the template literal of line 32 throws before the `try`; the handler makes no
`save()` call and issues no database operation at all, where the claim asks
for exactly one write attempt. -/
theorem no_write_attempt_on_trap_body :
    (handler sampleRuntime reachable ⟨trapBody⟩).saves = [] ∧
      (handler sampleRuntime reachable ⟨trapBody⟩).dbOps = [] ∧
      (handler sampleRuntime reachable ⟨trapBody⟩).threw = some primitiveError :=
  ⟨rfl, rfl, rfl⟩

/-- Counterexample to C6 as stated: handling the body
`{"fingerId": 101, "message": "Attendance marked"}` writes two console lines,
the received line and the success line, not one. -/
theorem two_lines_on_marked_body :
    (handler sampleRuntime reachable ⟨markedBody⟩).logLines = 2 ∧
      (handler sampleRuntime reachable ⟨markedBody⟩).logLines ≠ 1 ∧
      (handler sampleRuntime reachable ⟨markedBody⟩).events.filter Event.isConsole =
        [ .log [.text "📥 Received attendance data -> fingerId: 101, message: \"Attendance marked\""],
          .log [.text "✅ Attendance data saved to database:", .doc markedDoc] ] :=
  ⟨rfl, by decide, rfl⟩

/-- C6, amended: on every request the handler does not throw on, exactly two
console lines are written: first the received line of line 32 by
`console.log`, then either the success line by `console.log` (when `save()`
succeeded) or the failure line by `console.error` (when it failed). -/
theorem two_log_lines_when_answered (rt : Runtime) (w : World) (req : Req)
    (hrun : (handler rt w req).threw = none) :
    (handler rt w req).logLines = 2 ∧
      ∃ line r,
        receivedLine rt (ownProp req.body "fingerId") (ownProp req.body "message") = .ok line ∧
        (((r, Except.ok ()) ∈ (handler rt w req).saves ∧
          (handler rt w req).events.filter Event.isConsole =
            [ .log [.text line],
              .log [.text "✅ Attendance data saved to database:", .doc r] ]) ∨
        (∃ e, (r, Except.error e) ∈ (handler rt w req).saves ∧
          (handler rt w req).events.filter Event.isConsole =
            [ .log [.text line],
              .error [.text "❌ Failed to save attendance data:", .text e.message] ])) := by
  obtain ⟨line, r, hline, h | ⟨e, h⟩ | ⟨e, h⟩⟩ := answered_run hrun
  · exact ⟨by simp [Run.logLines, h, Event.isConsole], line, r, hline,
      Or.inl ⟨by simp [Run.saves, h], by simp [h, Event.isConsole]⟩⟩
  · exact ⟨by simp [Run.logLines, h, Event.isConsole], line, r, hline,
      Or.inr ⟨e, by simp [Run.saves, h], by simp [h, Event.isConsole]⟩⟩
  · exact ⟨by simp [Run.logLines, h, Event.isConsole], line, r, hline,
      Or.inr ⟨e, by simp [Run.saves, h], by simp [h, Event.isConsole]⟩⟩

/-- Witness for C6, amended: the body `{"fingerId": 101, "message": "Attendance
marked"}` while the database connection is lost. -/
theorem two_log_lines_when_answered_witness :
    (handler sampleRuntime unreachable ⟨markedBody⟩).threw = none ∧
      (handler sampleRuntime unreachable ⟨markedBody⟩).logLines = 2 :=
  ⟨rfl, (two_log_lines_when_answered sampleRuntime unreachable ⟨markedBody⟩ rfl).1⟩

/-- Counterexample to C7 as stated: the body
`{"fingerId": 101, "message": "Attendance marked", "timestamp": 5}` carries the
timestamp 5, yet the record the handler saves at clock reading 1000 has the
timestamp 1000: the handler hands only `fingerId` and `message` to the
constructor. -/
theorem body_timestamp_ignored :
    ownProp stampedBody "timestamp" = .num (.finite 5) ∧
      reachable.now = 1000 ∧
      (handler sampleRuntime reachable ⟨stampedBody⟩).saves = [(markedDoc, .ok ())] ∧
      markedDoc.timestamp = 1000 ∧ markedDoc.timestamp ≠ 5 :=
  ⟨rfl, rfl, rfl, rfl, by decide⟩

/-- C7, amended: every record the handler saves, whether `save()` succeeds or
fails and whatever the request body carries (a `timestamp` of its own
included), has the timestamp read from the clock when the record was
constructed. -/
theorem saved_timestamp_is_clock (rt : Runtime) (w : World) (req : Req) (r : Doc)
    (result : Except JsError Unit) (hsave : (r, result) ∈ (handler rt w req).saves) :
    r.timestamp = w.now := by
  rcases handler_cases rt w req with ⟨e, he⟩ | ⟨line, -, hrun⟩
  · simp [he, Run.saves] at hsave
  · rcases tryCatch_cases rt w (ownProp req.body "fingerId") (ownProp req.body "message") with
      ⟨-, -, htry⟩ | ⟨err, -, -, htry⟩ | ⟨-, htry⟩ <;>
    · rw [hrun, htry] at hsave
      simp [Run.saves] at hsave
      rw [hsave.1]
      rfl

/-- Witness for C7, amended: the body that carries the timestamp 5, handled at
clock reading 1000. -/
theorem saved_timestamp_is_clock_witness :
    (markedDoc, Except.ok ()) ∈ (handler sampleRuntime reachable ⟨stampedBody⟩).saves ∧
      markedDoc.timestamp = reachable.now :=
  ⟨List.mem_singleton.mpr rfl,
    saved_timestamp_is_clock sampleRuntime reachable ⟨stampedBody⟩ markedDoc (.ok ())
      (List.mem_singleton.mpr rfl)⟩

/-- C10, the failing inputs: when `req.body` is `undefined` the destructuring
of line 30 throws, and on the JSON body `{"fingerId": {"toString": 1}}` the
template literal of line 32 throws; both statements stand outside the `try`,
so the handler rejects with a `TypeError` and sends no response, whether or
not the database is reachable. -/
theorem handler_throws_unanswered :
    (handler sampleRuntime reachable ⟨.undefined⟩).responses = [] ∧
      (handler sampleRuntime reachable ⟨.undefined⟩).threw =
        some (destructureError "undefined") ∧
      (handler sampleRuntime reachable ⟨trapBody⟩).responses = [] ∧
      (handler sampleRuntime reachable ⟨trapBody⟩).threw = some primitiveError ∧
      (handler sampleRuntime unreachable ⟨trapBody⟩).responses = [] :=
  ⟨rfl, rfl, rfl, rfl, rfl⟩

/-- Once line 30 has read the two fields, the handler throws exactly when one
of the two substitutions of line 32 does. -/
theorem threw_of_fields {rt : Runtime} {w : World} {req : Req} {f m : JsVal}
    (h : destructure req.body = .ok (f, m)) :
    (handler rt w req).threw ≠ none ↔
      ((∃ e, jsToString rt f = .error e) ∨ (∃ e, jsToString rt m = .error e)) := by
  unfold handler
  rw [h]
  simp only [receivedLine]
  cases hf : jsToString rt f <;> cases hm : jsToString rt m <;> simp

/-- The handler throws exactly when line 30 or line 32 throws: the body is
`undefined` or `null`, or the `fingerId` or the `message` does not convert to
a string. -/
theorem threw_iff (rt : Runtime) (w : World) (req : Req) :
    (handler rt w req).threw ≠ none ↔
      (req.body = .undefined ∨ req.body = .null ∨
        (∃ e, jsToString rt (ownProp req.body "fingerId") = .error e) ∨
        (∃ e, jsToString rt (ownProp req.body "message") = .error e)) := by
  by_cases hu : req.body = .undefined
  · simp [handler, destructure, hu]
  · by_cases hn : req.body = .null
    · simp [handler, destructure, hn]
    · have h : destructure req.body =
          .ok (ownProp req.body "fingerId", ownProp req.body "message") := by
        cases hb : req.body <;> simp_all [destructure]
      rw [threw_of_fields h]
      simp [hu, hn]

end Attendance

/-! ## Properties of the deployment script -/

namespace Deploy

open Attendance (JsError)

/-- The two shapes of a run of the script: every call resolved and the address
of the deployed contract was logged last, or some calls resolved, the next one
rejected, and the error was printed and the process exited with code 1. -/
theorem script_cases (h : Hardhat) :
    (∃ factory contract address,
      h.getContractFactory "BiometricNFT" = .ok factory ∧ h.deploy factory = .ok contract ∧
      h.waitForDeployment contract = .ok () ∧ h.getAddress contract = .ok address ∧
      script h =
        [ .resolved .getContractFactory, .resolved .deploy, .resolved .waitForDeployment,
          .resolved .getAddress, .log ["✅ Deployed at:", address] ]) ∨
    (∃ done step err, script h = done ++ [.rejected step err, .error err, .exit 1] ∧
      ∀ ev ∈ done, ev.isResolved = true) := by
  cases h1 : h.getContractFactory "BiometricNFT" with
  | error e =>
    exact Or.inr ⟨[], .getContractFactory, e, by simp [script, main, h1], by simp⟩
  | ok factory =>
    cases h2 : h.deploy factory with
    | error e =>
      exact Or.inr ⟨[.resolved .getContractFactory], .deploy, e, by simp [script, main, h1, h2],
        by simp [Event.isResolved]⟩
    | ok contract =>
      cases h3 : h.waitForDeployment contract with
      | error e =>
        exact Or.inr ⟨[.resolved .getContractFactory, .resolved .deploy], .waitForDeployment, e,
          by simp [script, main, h1, h2, h3], by simp [Event.isResolved]⟩
      | ok u =>
        cases h4 : h.getAddress contract with
        | error e =>
          exact Or.inr ⟨[.resolved .getContractFactory, .resolved .deploy,
            .resolved .waitForDeployment], .getAddress, e,
            by simp [script, main, h1, h2, h3, h4], by simp [Event.isResolved]⟩
        | ok address =>
          exact Or.inl ⟨factory, contract, address, rfl, h2, h3, h4,
            by simp [script, main, h1, h2, h3, h4]⟩

/-- C8: the effects of the script are decided by the outcomes of the four
awaited calls of `main`.  When all four resolve, the effects are the four
calls resolving in order followed by one `console.log` of the address that
`getAddress` returned, and nothing else: the address is printed once, after
`waitForDeployment` resolved, and `process.exit` is not called.  When one of
them rejects, the effects are the calls that resolved before it, the
rejection, `console.error` of that error and then `process.exit(1)`, with no
address line.  So the script exits with code 1 exactly when some step of
`main` throws. -/
theorem exit_one_iff_step_throws (h : Hardhat) :
    (∀ factory contract address,
        h.getContractFactory "BiometricNFT" = .ok factory → h.deploy factory = .ok contract →
        h.waitForDeployment contract = .ok () → h.getAddress contract = .ok address →
        script h =
          [ .resolved .getContractFactory, .resolved .deploy, .resolved .waitForDeployment,
            .resolved .getAddress, .log ["✅ Deployed at:", address] ]) ∧
      (∀ err, h.getContractFactory "BiometricNFT" = .error err →
        script h = [.rejected .getContractFactory err, .error err, .exit 1]) ∧
      (∀ factory err,
        h.getContractFactory "BiometricNFT" = .ok factory → h.deploy factory = .error err →
        script h =
          [.resolved .getContractFactory, .rejected .deploy err, .error err, .exit 1]) ∧
      (∀ factory contract err,
        h.getContractFactory "BiometricNFT" = .ok factory → h.deploy factory = .ok contract →
        h.waitForDeployment contract = .error err →
        script h =
          [ .resolved .getContractFactory, .resolved .deploy, .rejected .waitForDeployment err,
            .error err, .exit 1 ]) ∧
      (∀ factory contract err,
        h.getContractFactory "BiometricNFT" = .ok factory → h.deploy factory = .ok contract →
        h.waitForDeployment contract = .ok () → h.getAddress contract = .error err →
        script h =
          [ .resolved .getContractFactory, .resolved .deploy, .resolved .waitForDeployment,
            .rejected .getAddress err, .error err, .exit 1 ]) ∧
      (Event.exit 1 ∈ script h ↔
        ((∃ err, h.getContractFactory "BiometricNFT" = .error err) ∨
          (∃ factory err,
            h.getContractFactory "BiometricNFT" = .ok factory ∧ h.deploy factory = .error err) ∨
          (∃ factory contract err,
            h.getContractFactory "BiometricNFT" = .ok factory ∧ h.deploy factory = .ok contract ∧
            h.waitForDeployment contract = .error err) ∨
          (∃ factory contract err,
            h.getContractFactory "BiometricNFT" = .ok factory ∧ h.deploy factory = .ok contract ∧
            h.waitForDeployment contract = .ok () ∧ h.getAddress contract = .error err))) ∧
      (∀ code, Event.exit code ∈ script h → code = 1) := by
  refine ⟨?_, ?_, ?_, ?_, ?_, ?_, ?_⟩
  · intro factory contract address h1 h2 h3 h4
    simp [script, main, h1, h2, h3, h4]
  · intro err h1
    simp [script, main, h1]
  · intro factory err h1 h2
    simp [script, main, h1, h2]
  · intro factory contract err h1 h2 h3
    simp [script, main, h1, h2, h3]
  · intro factory contract err h1 h2 h3 h4
    simp [script, main, h1, h2, h3, h4]
  · cases h1 : h.getContractFactory "BiometricNFT" with
    | error e => simp [script, main, h1]
    | ok factory =>
      cases h2 : h.deploy factory with
      | error e => simp [script, main, h1, h2]
      | ok contract =>
        cases h3 : h.waitForDeployment contract with
        | error e => simp [script, main, h1, h2, h3]
        | ok u =>
          cases h4 : h.getAddress contract with
          | error e => simp [script, main, h1, h2, h3, h4]
          | ok address => simp [script, main, h1, h2, h3, h4]
  · intro code hmem
    rcases script_cases h with ⟨factory, contract, address, -, -, -, -, hs⟩ |
      ⟨done, step, err, hs, hdone⟩
    · rw [hs] at hmem
      simp at hmem
    · rw [hs] at hmem
      simp only [List.mem_append, List.mem_cons, List.mem_singleton, List.not_mem_nil,
        or_false] at hmem
      rcases hmem with hmem | hmem | hmem | hmem
      · have := hdone _ hmem
        simp [Event.isResolved] at this
      · cases hmem
      · cases hmem
      · cases hmem; rfl

/-- Witness for C8: on the test network every call resolves and the script
logs the address once and does not exit; on the unreachable network `deploy()`
rejects, the error is printed and the script exits with code 1 without an
address line. -/
theorem exit_one_iff_step_throws_witness :
    script testNetwork =
        [ .resolved .getContractFactory, .resolved .deploy, .resolved .waitForDeployment,
          .resolved .getAddress,
          .log ["✅ Deployed at:", "0x5FbDB2315678afecb367f032d93F642f64180aa3"] ] ∧
      script deadNetwork =
        [ .resolved .getContractFactory,
          .rejected .deploy ⟨"HardhatError", "Cannot connect to the network"⟩,
          .error ⟨"HardhatError", "Cannot connect to the network"⟩, .exit 1 ] ∧
      Event.exit 1 ∉ script testNetwork ∧ Event.exit 1 ∈ script deadNetwork :=
  ⟨(exit_one_iff_step_throws testNetwork).1 1 2 _ rfl rfl rfl rfl,
    (exit_one_iff_step_throws deadNetwork).2.2.1 1 _ rfl rfl,
    by decide,
    (exit_one_iff_step_throws deadNetwork).2.2.2.2.2.1.mpr
      (Or.inr (Or.inl ⟨1, ⟨"HardhatError", "Cannot connect to the network"⟩, rfl, rfl⟩))⟩

end Deploy
